import Mathlib

/-! ### Definitions -/

mutual

/-- Model of a JavaScript runtime value. Numbers are modelled as integers;
the integration only ever manipulates integral numbers (ids) and strings. -/
inductive JsVal where
  | undef : JsVal
  | null : JsVal
  | bool : Bool → JsVal
  | num : Int → JsVal
  | str : String → JsVal
  | arr : JsArr → JsVal
  | obj : JsObj → JsVal
deriving DecidableEq

/-- Elements of a JavaScript array value. -/
inductive JsArr where
  | nil : JsArr
  | cons : JsVal → JsArr → JsArr
deriving DecidableEq

/-- Key/value bindings of a JavaScript object value, in insertion order. -/
inductive JsObj where
  | nil : JsObj
  | cons : String → JsVal → JsObj → JsObj
deriving DecidableEq

end

/-- Build an array value from a Lean list of elements. -/
def JsVal.arrOf (xs : List JsVal) : JsVal :=
  .arr (xs.foldr JsArr.cons .nil)

/-- Build an object value from a Lean list of bindings. -/
def JsVal.objOf (fs : List (String × JsVal)) : JsVal :=
  .obj (fs.foldr (fun kv tl => JsObj.cons kv.1 kv.2 tl) .nil)

/-- First binding of a key in an object, mirroring JavaScript property
lookup on the object values this system handles. -/
def JsObj.lookup : JsObj → String → Option JsVal
  | .nil, _ => none
  | .cons k v tl, key => if k = key then some v else tl.lookup key

/-- Element of an array at an index, if in range. -/
def JsArr.get? : JsArr → Nat → Option JsVal
  | .nil, _ => none
  | .cons x _, 0 => some x
  | .cons _ tl, n + 1 => tl.get? n

/-- Length of an array value. -/
def JsArr.length : JsArr → Nat
  | .nil => 0
  | .cons _ tl => tl.length + 1

/-- JavaScript truthiness: `undefined`, `null`, `false`, `0` and `""` are
falsy; every other value (including empty arrays and objects) is truthy. -/
def JsVal.jsTruthy : JsVal → Bool
  | .undef => false
  | .null => false
  | .bool b => b
  | .num n => n != 0
  | .str s => s != ""
  | .arr _ => true
  | .obj _ => true

mutual

/-- Comma-joined stringification of array elements, as in JavaScript
`String([..])`. -/
def JsArr.arrToString : JsArr → String
  | .nil => ""
  | .cons x .nil => JsVal.elemToString x
  | .cons x (.cons y rest) => JsVal.elemToString x ++ "," ++ JsArr.arrToString (.cons y rest)

/-- Stringification of a single array element: `null` and `undefined`
become empty, other values stringify as usual. -/
def JsVal.elemToString : JsVal → String
  | .undef => ""
  | .null => ""
  | .bool b => if b then "true" else "false"
  | .num n => toString n
  | .str s => s
  | .arr xs => JsArr.arrToString xs
  | .obj _ => "[object Object]"

end

/-- JavaScript `String(v)` coercion. Arrays stringify element-wise joined by
commas with `null`/`undefined` elements becoming empty; objects stringify to
the tag `[object Object]`. -/
def JsVal.jsToString : JsVal → String
  | .undef => "undefined"
  | .null => "null"
  | .bool b => if b then "true" else "false"
  | .num n => toString n
  | .str s => s
  | .arr xs => JsArr.arrToString xs
  | .obj _ => "[object Object]"

/-- Decimal digit value of a character, if it is a decimal digit. -/
def digitVal (c : Char) : Option Nat :=
  if c.isDigit then some (c.toNat - '0'.toNat) else none

/-- Hexadecimal digit value of a character, if it is a hex digit. -/
def hexDigitVal (c : Char) : Option Nat :=
  if c.isDigit then some (c.toNat - '0'.toNat)
  else if 'a'.toNat ≤ c.toNat ∧ c.toNat ≤ 'f'.toNat then some (c.toNat - 'a'.toNat + 10)
  else if 'A'.toNat ≤ c.toNat ∧ c.toNat ≤ 'F'.toNat then some (c.toNat - 'A'.toNat + 10)
  else none

/-- Accumulate leading digits of a character list into a number; `none` when
no leading digit exists (JavaScript `NaN`). -/
def takeDigits (dv : Char → Option Nat) (base : Nat) : List Char → Option Nat → Option Nat
  | [], acc => acc
  | c :: rest, acc =>
    match dv c with
    | some d => takeDigits dv base rest (some ((acc.getD 0) * base + d))
    | none => acc

/-- JavaScript `parseInt` on a string (radix unspecified): skip leading
whitespace, read an optional sign, then parse leading decimal digits — or
hexadecimal digits after a `0x`/`0X` prefix. `none` models `NaN`. -/
def strParseInt (s : String) : Option Int :=
  let cs := s.toList.dropWhile (fun c => c == ' ' || c == '\t' || c == '\n' || c == '\r')
  let signAndRest : Int × List Char :=
    match cs with
    | '-' :: rest => (-1, rest)
    | '+' :: rest => (1, rest)
    | _ => (1, cs)
  let mag : Option Nat :=
    match signAndRest.2 with
    | '0' :: 'x' :: rest => takeDigits hexDigitVal 16 rest none
    | '0' :: 'X' :: rest => takeDigits hexDigitVal 16 rest none
    | other => takeDigits digitVal 10 other none
  mag.map (fun n => signAndRest.1 * (n : Int))

/-- JavaScript `parseInt(v)`: the argument is first coerced with `String(v)`,
then parsed. `none` models `NaN`. -/
def jsParseInt (v : JsVal) : Option Int :=
  strParseInt (JsVal.jsToString v)

/-- Property access `v[k]`, which throws a `TypeError` when the base is
`null` or `undefined`, yields the bound value (or `undefined`) on objects,
and yields `undefined` on other primitives and arrays (no property of that
name exists on them in the payloads this system handles). -/
def jsGetProp : JsVal → String → Except String JsVal
  | .undef, k => .error ("TypeError: Cannot read properties of undefined (reading " ++ k ++ ")")
  | .null, k => .error ("TypeError: Cannot read properties of null (reading " ++ k ++ ")")
  | .obj fs, k => .ok ((fs.lookup k).getD .undef)
  | _, _ => .ok (.undef)

/-- Optional-chaining property access `v?.k`: short-circuits to `undefined`
when the base is `null` or `undefined`. -/
def jsOptProp (v : JsVal) (k : String) : Except String JsVal :=
  match v with
  | .undef => .ok .undef
  | .null => .ok .undef
  | _ => jsGetProp v k

/-- Index access `v[i]`: element on arrays (`undefined` out of range), the
one-character string on strings, the string-keyed lookup on objects, a throw
on `null`/`undefined`, and `undefined` on other primitives. -/
def jsIndex : JsVal → Nat → Except String JsVal
  | .undef, i => .error ("TypeError: Cannot read properties of undefined (reading " ++ toString i ++ ")")
  | .null, i => .error ("TypeError: Cannot read properties of null (reading " ++ toString i ++ ")")
  | .arr xs, i => .ok ((xs.get? i).getD .undef)
  | .str s, i => .ok (if i < s.length then .str (String.mk [s.toList.getD i ' ']) else .undef)
  | .obj fs, i => .ok ((fs.lookup (toString i)).getD .undef)
  | _, _ => .ok (.undef)

/-- Optional-chaining index access `v?.[i]`. -/
def jsOptIndex (v : JsVal) (i : Nat) : Except String JsVal :=
  match v with
  | .undef => .ok .undef
  | .null => .ok .undef
  | _ => jsIndex v i

/-- Truthiness of an optional string under JavaScript coercion: configuration
fields hold either `null` (`none`) or a string, and a string is truthy
exactly when it is nonempty. -/
def optTruthy : Option String → Bool
  | none => false
  | some s => s != ""

/-- View an optional configuration string as the JavaScript value it holds
(`null` when unset). -/
def optToJs : Option String → JsVal
  | none => JsVal.null
  | some s => JsVal.str s

namespace Kommo

/-- Length property access `v.length` as used by
`field.values.length`: array length, string length, object lookup of the
`length` key, `undefined` on other primitives. Only called on truthy
values, which are never `null`/`undefined`. -/
def jsLengthVal : JsVal → JsVal
  | .arr xs => .num xs.length
  | .str s => .num s.length
  | .obj fs => (fs.lookup "length").getD .undef
  | _ => (.undef)

/-- Embedding of `customFields.find(f => f.field_id === parseInt(fieldId))`:
walks the array, reading `f.field_id` of each element (a throw when the
element is `null`/`undefined`) and comparing it to the parsed field id with
JavaScript strict equality (`NaN`, modelled as `none`, equals nothing). -/
def findByFieldId : JsArr → Option Int → Except String (Option JsVal)
  | .nil, _ => .ok none
  | .cons f rest, target => do
    let fid ← jsGetProp f "field_id"
    let isMatch :=
      match fid, target with
      | .num n, some m => n == m
      | _, _ => false
    if isMatch then .ok (some f) else findByFieldId rest target

/-- Tail of `getCustomFieldValue` once a field entry was found
(src/lib/kommo.js lines 71–92): `null` when `values` is falsy or has
`length === 0`, otherwise `values[0].value` when that property is defined
(`!== undefined`, so a defined `null` is returned), else a truthy
`enum_code`, else a truthy `enum`, else `null`. -/
def extractFromField (field : JsVal) : Except String JsVal := do
  let values ← jsGetProp field "values"
  if !values.jsTruthy then .ok .null
  else
    match jsLengthVal values with
    | .num 0 => .ok .null
    | _ => do
      let value ← jsIndex values 0
      let vv ← jsGetProp value "value"
      match vv with
      | .undef => do
        let ec ← jsGetProp value "enum_code"
        if ec.jsTruthy then .ok ec
        else do
          let en ← jsGetProp value "enum"
          if en.jsTruthy then .ok en else .ok .null
      | v => .ok v

/-- Embedding of `KommoClient.getCustomFieldValue(entity, fieldId)`
(src/lib/kommo.js lines 67–93): defaults a falsy `custom_fields_values` to
`[]`, finds the entry whose `field_id` strictly equals `parseInt(fieldId)`,
returns `null` when no entry matches, and otherwise extracts the entry's
first value (`extractFromField`). The `error` case models a thrown
`TypeError`. -/
def getCustomFieldValue (entity : JsVal) (fieldId : String) : Except String JsVal := do
  let cfv ← jsGetProp entity "custom_fields_values"
  let customFields := if cfv.jsTruthy then cfv else JsVal.arr .nil
  match customFields with
  | .arr items => do
    let fieldOpt ← findByFieldId items (jsParseInt (.str fieldId))
    match fieldOpt with
    | none => .ok .null
    | some field => extractFromField field
  | _ => .error "TypeError: customFields.find is not a function"

/-- Well-formed test entity with a single custom field of the given id and
value entries, in the shape the CRM returns. -/
def mkEntity (fid : Int) (vals : List JsVal) : JsVal :=
  JsVal.objOf [("custom_fields_values",
    JsVal.arrOf [JsVal.objOf [("field_id", .num fid), ("values", JsVal.arrOf vals)]])]

end Kommo

namespace Webhook

/-- Trigger configuration from `settings.trigger`: each field is either
`null` (unset) or the environment-provided string. -/
structure TriggerConfig where
  pipelineId : Option String
  statusId : Option String

/-- JavaScript strict inequality `!==` between two `parseInt` results,
where `none` models `NaN` and `NaN !== x` is true for every `x`,
including `NaN` itself. -/
def jsStrictNeqNum : Option Int → Option Int → Bool
  | some a, some b => a != b
  | _, _ => true

/-- Embedding of `shouldTrigger(pipelineId, statusId)` (src/api/webhook.js
lines 225–244): trigger on everything when neither filter field is set,
otherwise require each set field to satisfy
`parseInt(webhookValue) === parseInt(configValue)`. -/
def shouldTrigger (cfg : TriggerConfig) (pipelineId statusId : JsVal) : Bool :=
  if !(optTruthy cfg.pipelineId) && !(optTruthy cfg.statusId) then true
  else if optTruthy cfg.pipelineId &&
      jsStrictNeqNum (jsParseInt pipelineId) (jsParseInt (optToJs cfg.pipelineId)) then false
  else if optTruthy cfg.statusId &&
      jsStrictNeqNum (jsParseInt statusId) (jsParseInt (optToJs cfg.statusId)) then false
  else true

/-- A webhook value and a configuration field agree numerically: both parse
to the same integer under JavaScript `parseInt`. -/
def numMatch (v : JsVal) (c : Option String) : Prop :=
  ∃ n : Int, jsParseInt v = some n ∧ jsParseInt (optToJs c) = some n

end Webhook

namespace GoogleDocs

/-- One `replaceAllText` request of the Docs batch update, as built by
`replacePlaceholders`: `{replaceAllText: {containsText: {text, matchCase},
replaceText}}`. -/
structure ReplaceRequest where
  text : String
  matchCase : Bool
  replaceText : String
deriving DecidableEq, Repr

/-- Observable backend calls of the document client. The internal
round-trips of `copyTemplate` (template read and document creation) are
abstracted into the single `copyTemplate` effect; `batchUpdate`,
`createPermission` and `getFileLink` mirror the Docs/Drive API calls made
by `replacePlaceholders`, `shareDocument` and `getShareableLink`. -/
inductive DocsEffect where
  | copyTemplate (templateId title : String) (folderId : Option String)
  | batchUpdate (documentId : String) (requests : List ReplaceRequest)
  | createPermission (fileId ptype role email : String)
  | getFileLink (fileId : String)
deriving DecidableEq, Repr

/-- Responses of the document backend for one invocation: outcome of the
template copy, of the batched text replacement, of each per-email
permission grant, of the anyone-with-link grant and of the metadata fetch
returning the view link. -/
structure DocsEnv where
  copyResult : Except String String
  batchUpdateResult : Except String Unit
  userPermResult : String → Except String Unit
  anyonePermResult : Except String Unit
  linkResult : Except String String

/-- Requests built by the loop of `replacePlaceholders`
(src/lib/google-docs.js lines 148–164): entries whose value is `null` or
`undefined` are skipped with a warning; every other entry becomes one
case-sensitive `replaceAllText` request replacing the placeholder with
`String(value)`. -/
def buildReplaceRequests : List (String × JsVal) → List ReplaceRequest
  | [] => []
  | (placeholder, value) :: rest =>
    match value with
    | .null => buildReplaceRequests rest
    | .undef => buildReplaceRequests rest
    | v => ⟨placeholder, true, v.jsToString⟩ :: buildReplaceRequests rest

/-- Embedding of `GoogleDocsClient.replacePlaceholders(documentId,
replacements)` (src/lib/google-docs.js lines 143–184): builds the request
list, returns early without any backend call when no valid replacement
remains, otherwise submits all requests as one `batchUpdate`. -/
def replacePlaceholders (env : DocsEnv) (documentId : String)
    (replacements : List (String × JsVal)) : Except String Unit × List DocsEffect :=
  let requests := buildReplaceRequests replacements
  match requests with
  | [] => (.ok (), [])
  | _ =>
    match env.batchUpdateResult with
    | .ok _ => (.ok (), [.batchUpdate documentId requests])
    | .error e => (.error e, [.batchUpdate documentId requests])

/-- Per-email permission loop of `shareDocument`: grants sequentially and
stops at the first backend failure, which propagates. -/
def shareLoop (env : DocsEnv) (fileId : String) (role : String) :
    List String → Except String Unit × List DocsEffect
  | [] => (.ok (), [])
  | email :: rest =>
    match env.userPermResult email with
    | .error e => (.error e, [.createPermission fileId "user" role email.trim])
    | .ok _ =>
      let tail := shareLoop env fileId role rest
      (tail.1, .createPermission fileId "user" role email.trim :: tail.2)

/-- Embedding of `GoogleDocsClient.shareDocument(fileId, emails, role)`
(src/lib/google-docs.js lines 224–248): throws on a role outside
reader/writer/commenter before any backend call, otherwise grants one
user permission per email. -/
def shareDocument (env : DocsEnv) (fileId : String) (emails : List String)
    (role : String) : Except String Unit × List DocsEffect :=
  if role = "reader" ∨ role = "writer" ∨ role = "commenter" then
    shareLoop env fileId role emails
  else
    (.error ("Invalid role: " ++ role ++ ". Must be one of: reader, writer, commenter"), [])

/-- Embedding of `GoogleDocsClient.getShareableLink(fileId)`
(src/lib/google-docs.js lines 255–277): grants anyone-with-link read
access, then fetches the `webViewLink`. -/
def getShareableLink (env : DocsEnv) (fileId : String) :
    Except String String × List DocsEffect :=
  match env.anyonePermResult with
  | .error e => (.error e, [.createPermission fileId "anyone" "reader" ""])
  | .ok _ =>
    match env.linkResult with
    | .error e => (.error e, [.createPermission fileId "anyone" "reader" "", .getFileLink fileId])
    | .ok link => (.ok link, [.createPermission fileId "anyone" "reader" "", .getFileLink fileId])

/-- Embedding of `GoogleDocsClient.copyTemplate(templateId, newTitle,
folderId)` (src/lib/google-docs.js lines 53–135): the template read and
document creation round-trips are abstracted into one effect whose outcome
the environment dictates (new document id, or a thrown error). -/
def copyTemplate (env : DocsEnv) (templateId title : String)
    (folderId : Option String) : Except String String × List DocsEffect :=
  (env.copyResult, [.copyTemplate templateId title folderId])

/-- Result of `createContract`: the new document id and its shareable link. -/
structure DocResult where
  id : String
  link : String
deriving DecidableEq, Repr

/-- Embedding of `GoogleDocsClient.createContract(templateId, title,
replacements, folderId, shareWith, shareRole)` (src/lib/google-docs.js
lines 289–320): copy template, replace placeholders, share when the list
is nonempty, fetch the shareable link; the first failing step aborts the
composite and its error is rethrown unchanged. -/
def createContract (env : DocsEnv) (templateId title : String)
    (replacements : List (String × JsVal)) (folderId : Option String)
    (shareWith : List String) (shareRole : String) :
    Except String DocResult × List DocsEffect :=
  match copyTemplate env templateId title folderId with
  | (.error e, effs1) => (.error e, effs1)
  | (.ok newDocId, effs1) =>
    match replacePlaceholders env newDocId replacements with
    | (.error e, effs2) => (.error e, effs1 ++ effs2)
    | (.ok _, effs2) =>
      let shareStep : Except String Unit × List DocsEffect :=
        match shareWith with
        | [] => (.ok (), [])
        | _ => shareDocument env newDocId shareWith shareRole
      match shareStep with
      | (.error e, effs3) => (.error e, effs1 ++ effs2 ++ effs3)
      | (.ok _, effs3) =>
        match getShareableLink env newDocId with
        | (.error e, effs4) => (.error e, effs1 ++ effs2 ++ effs3 ++ effs4)
        | (.ok link, effs4) => (.ok ⟨newDocId, link⟩, effs1 ++ effs2 ++ effs3 ++ effs4)

/-- Whether an effect is a permission grant (sharing) or a link fetch. -/
def DocsEffect.isPermissionOrLink : DocsEffect → Bool
  | .createPermission _ _ _ _ => true
  | .getFileLink _ => true
  | _ => false

/-- Whether an effect is the metadata fetch returning the view link. -/
def DocsEffect.isGetFileLink : DocsEffect → Bool
  | .getFileLink _ => true
  | _ => false

/-- Document backend environment in which every call succeeds. -/
def demoDocsEnv : DocsEnv :=
  ⟨.ok "newdoc", .ok (), fun _ => .ok (), .ok (), .ok "https://docs.example/view"⟩

end GoogleDocs

/-- JavaScript `a || b` on an optional string against a default. -/
def jsOrStr (a : Option String) (b : String) : String :=
  if optTruthy a then a.getD "" else b

namespace Autentique

/-- Error taxonomy of the signature client, tagging each throw site of the
source: `validation` for missing required input, `configuration` for a
missing environment setting, `upstream` for backend failures. -/
inductive AutError where
  | validation (msg : String)
  | configuration (msg : String)
  | upstream (msg : String)
deriving DecidableEq, Repr

/-- Observable calls of the signature client: the Drive PDF export and the
GraphQL document-creation mutation (carrying the signer emails and the
sandbox flag it submits). -/
inductive AutEffect where
  | exportPdf (documentId : String)
  | createDocument (name : String) (signerEmails : List String) (sandbox : Bool)
deriving DecidableEq, Repr

/-- A signer as assembled by `sendContractForSignature`. -/
structure Signer where
  name : String
  email : String
  action : String
deriving DecidableEq, Repr

/-- One signature record of the backend's `createDocument` response. -/
structure RawSignature where
  publicId : String
  email : String
  userName : Option String
  actionName : String
deriving DecidableEq, Repr

/-- The backend's `createDocument` response document. -/
structure RawDocument where
  id : String
  name : String
  createdAt : String
  signatures : List RawSignature
deriving DecidableEq, Repr

/-- Environment of one signature-client invocation: the company signer
configuration, the sandbox flag, and the backend responses for the PDF
export and the document creation. -/
structure AutEnv where
  companySignerName : Option String
  companySignerEmail : Option String
  sandbox : Bool
  exportResult : Except AutError String
  createDocResult : Except AutError RawDocument

/-- One entry of the returned `signatures` array. -/
structure SignatureInfo where
  publicId : String
  email : String
  name : String
  action : String
deriving DecidableEq, Repr

/-- Return value of `sendContractForSignature`. -/
structure AutResult where
  id : String
  name : String
  createdAt : String
  signatures : List SignatureInfo
  primaryLink : String
deriving DecidableEq, Repr

/-- Embedding of `exportDocumentAsPdf(documentId)` (src/unnamed/part_001
lines 49–67): one Drive export call whose outcome the environment
dictates; the PDF buffer is abstracted as a string. -/
def exportDocumentAsPdf (env : AutEnv) (documentId : String) :
    Except AutError String × List AutEffect :=
  (env.exportResult, [.exportPdf documentId])

/-- Embedding of `createDocument(documentName, pdfBuffer, signers)`
(src/unnamed/part_001 lines 129–189): one multipart GraphQL mutation
embedding the PDF, the signer emails and the sandbox flag. -/
def createDocument (env : AutEnv) (documentName : String) (_pdf : String)
    (signers : List Signer) : Except AutError RawDocument × List AutEffect :=
  (env.createDocResult,
    [.createDocument documentName (signers.map (fun s => s.email)) env.sandbox])

/-- Embedding of `AutentiqueClient.sendContractForSignature(googleDocId,
documentName, leadContactEmail, leadContactName)` (src/unnamed/part_001
lines 201–257): step 1 exports the PDF, step 2 builds the signer list —
throwing when the company signer email is unset and when the lead contact
email is falsy — step 3 submits the document, step 4 maps the response. -/
def sendContractForSignature (env : AutEnv) (googleDocId documentName : String)
    (leadContactEmail : Option String) (leadContactName : Option String) :
    Except AutError AutResult × List AutEffect :=
  match exportDocumentAsPdf env googleDocId with
  | (.error e, effs1) => (.error e, effs1)
  | (.ok pdf, effs1) =>
    if !(optTruthy env.companySignerEmail) then
      (.error (.configuration
        "AUTENTIQUE_COMPANY_SIGNER_EMAIL must be set in environment variables"), effs1)
    else
      let companySigner : Signer :=
        ⟨jsOrStr env.companySignerName "Company Representative",
         env.companySignerEmail.getD "", "SIGN"⟩
      if !(optTruthy leadContactEmail) then
        (.error (.validation "Lead contact email is required"), effs1)
      else
        let leadSigner : Signer :=
          ⟨jsOrStr leadContactName "Client", leadContactEmail.getD "", "SIGN"⟩
        match createDocument env documentName pdf [companySigner, leadSigner] with
        | (.error e, effs2) => (.error e, effs1 ++ effs2)
        | (.ok doc, effs2) =>
          (.ok ⟨doc.id, doc.name, doc.createdAt,
            doc.signatures.map (fun sig =>
              ⟨sig.publicId, sig.email, jsOrStr sig.userName sig.email, sig.actionName⟩),
            "https://painel.autentique.com.br/documentos/" ++ doc.id⟩,
           effs1 ++ effs2)

/-- Signature backend environment in which every call succeeds. -/
def demoAutEnv : AutEnv :=
  ⟨some "Co", some "company@example.com", false, .ok "PDF",
   .ok ⟨"autid", "Contract", "2026-01-01", []⟩⟩

end Autentique

/-- Build an object binding list from a Lean list of pairs. -/
def JsObj.ofList (fs : List (String × JsVal)) : JsObj :=
  fs.foldr (fun kv tl => JsObj.cons kv.1 kv.2 tl) .nil

namespace Kommo

/-- Definition following the spec's words, for comparison with the source
behaviour (claim C6): "try, in order, plain value, then enumeration code,
then enumeration label, returning the first present one and absence if
none is present" — presence meaning the property is defined on the value
entry. -/
def specFirstPresentValue (entry : JsObj) : JsVal :=
  match entry.lookup "value" with
  | some v => v
  | none =>
    match entry.lookup "enum_code" with
    | some v => v
    | none =>
      match entry.lookup "enum" with
      | some v => v
      | none => .null

end Kommo

/-- First-occurrence replacement on character lists. -/
def replaceFirstList (pat rep : List Char) : List Char → List Char
  | [] => []
  | c :: rest =>
    if pat.isPrefixOf (c :: rest) then rep ++ (c :: rest).drop pat.length
    else c :: replaceFirstList pat rep rest

/-- JavaScript `s.replace(pat, rep)` with a plain string pattern: replaces
the first occurrence only (no dollar substitution; the one call site uses
the nonempty pattern `"\x7blink\x7d"`). -/
def jsReplaceFirst (s pat rep : String) : String :=
  String.mk (replaceFirstList pat.toList rep.toList s.toList)

namespace Webhook

/-- Static configuration consumed by the webhook handler
(src/config/settings.js): the trigger filter, the Google Drive settings,
and the Kommo/Autentique integration settings. `linkFieldId` is a plain
string because the settings module always supplies a nonempty default. -/
structure Settings where
  trigger : TriggerConfig
  templateDocId : Option String
  folderId : Option String
  shareWith : List String
  shareRole : String
  linkFieldId : String
  postLinkToLead : Bool
  noteTemplate : String
  autentiqueLinkFieldId : Option String
  autentiqueEnabled : Bool

/-- Observable outbound calls of one webhook invocation. The composite
document-service operation (`googleDocs.createContract`) and the composite
signature operation (`autentique.sendContractForSignature`) appear as one
effect each at this level; their internal calls are modelled with the
respective clients. -/
inductive WebhookEffect where
  | getLead (leadId : JsVal)
  | createContract (templateDocId : Option String) (title : String)
      (replacements : List (String × JsVal))
  | sendAutentique (documentId title : String) (email : JsVal)
  | updateLeadCustomField (fieldId : String) (value : String)
  | addNote (text : String)
deriving DecidableEq

/-- The `autentique` object attached to the success response body. -/
structure AutInfo where
  documentId : String
  primaryLink : String
  signatures : List Autentique.SignatureInfo
deriving DecidableEq, Repr

/-- The JSON bodies the webhook handler can send, one constructor per
`res.json` call site of src/api/webhook.js. -/
inductive RespBody where
  | methodNotAllowed
  | noLeadId
  | triggerNotMet
  | existingContract (leadId : JsVal) (existingLink : JsVal)
  | success (leadId : JsVal) (documentId documentLink : String)
      (autentique : Option AutInfo)
  | failure (error : String)
deriving DecidableEq

/-- The `success` field of each response body shape (`none` when the JSON
carries no `success` key). -/
def RespBody.successField : RespBody → Option Bool
  | .existingContract _ _ => some true
  | .success _ _ _ _ => some true
  | .failure _ => some false
  | _ => none

/-- An inbound HTTP request: method and parsed JSON body. -/
structure Request where
  method : String
  body : JsVal

/-- Behaviour of the collaborating services for one webhook invocation:
outcomes of the two client constructors (which throw when credentials are
unset), of the lead fetch, of the document-creation composite, of the
Autentique constructor and send, of the two best-effort field updates and
of the note post; `today` is the ISO calendar date used in the document
title. -/
structure WebhookEnv where
  settings : Settings
  fieldMapping : List (String × String)
  kommoInit : Except String Unit
  googleInit : Except String Unit
  getLeadResult : Except String JsVal
  createContractResult : Except String GoogleDocs.DocResult
  autentiqueInit : Except String Unit
  sendResult : Except String Autentique.AutResult
  updateAutentiqueFieldResult : Except String Unit
  updateLinkFieldResult : Except String Unit
  addNoteResult : Except String Unit
  today : String

/-- Lead-id extraction (src/api/webhook.js lines 31–33):
`webhookData.leads?.status?.[0]?.id || webhookData.leads?.add?.[0]?.id ||
webhookData['leads[status][0][id]']`. -/
def extractLeadId (body : JsVal) : Except String JsVal := do
  let leads ← jsGetProp body "leads"
  let status ← jsOptProp leads "status"
  let s0 ← jsOptIndex status 0
  let v1 ← jsOptProp s0 "id"
  if v1.jsTruthy then return v1
  else
    let leads2 ← jsGetProp body "leads"
    let addArr ← jsOptProp leads2 "add"
    let a0 ← jsOptIndex addArr 0
    let v2 ← jsOptProp a0 "id"
    if v2.jsTruthy then return v2
    else jsGetProp body "leads[status][0][id]"

/-- Status-id extraction (src/api/webhook.js lines 35–36). -/
def extractNewStatusId (body : JsVal) : Except String JsVal := do
  let leads ← jsGetProp body "leads"
  let status ← jsOptProp leads "status"
  let s0 ← jsOptIndex status 0
  let v1 ← jsOptProp s0 "status_id"
  if v1.jsTruthy then return v1
  else jsGetProp body "leads[status][0][status_id]"

/-- Pipeline-id extraction (src/api/webhook.js lines 38–39). -/
def extractNewPipelineId (body : JsVal) : Except String JsVal := do
  let leads ← jsGetProp body "leads"
  let status ← jsOptProp leads "status"
  let s0 ← jsOptIndex status 0
  let v1 ← jsOptProp s0 "pipeline_id"
  if v1.jsTruthy then return v1
  else jsGetProp body "leads[status][0][pipeline_id]"

/-- Lead resolution (src/api/webhook.js line 63):
`leadData._embedded?.leads?.[0] || leadData`. -/
def resolveLead (leadData : JsVal) : Except String JsVal := do
  let emb ← jsGetProp leadData "_embedded"
  let leads ← jsOptProp emb "leads"
  let l0 ← jsOptIndex leads 0
  if l0.jsTruthy then return l0 else return leadData

/-- The `value || ''` coercion of the replacements loop
(src/api/webhook.js line 86): a falsy resolved value becomes the empty
string. -/
def replacementValue (value : JsVal) : JsVal :=
  if value.jsTruthy then value else .str ""

/-- The replacements loop (src/api/webhook.js lines 82–88): one entry per
field-mapping pair, binding the placeholder to the resolved custom-field
value coerced with `value || ''`. -/
def buildReplacements (lead : JsVal) :
    List (String × String) → Except String (List (String × JsVal))
  | [] => .ok []
  | (fieldId, placeholder) :: rest => do
    let value ← Kommo.getCustomFieldValue lead fieldId
    let tail ← buildReplacements lead rest
    return (placeholder, replacementValue value) :: tail

/-- Note text construction (src/api/webhook.js lines 174–179): the
`{link}` token of the template is replaced with the document link, and the
Autentique panel link is appended when present. -/
def noteText (template docLink : String) (aut : Option Autentique.AutResult) : String :=
  let base := jsReplaceFirst template "{link}" docLink
  match aut with
  | some a => if a.primaryLink ≠ "" then base ++ "\nAutentique: " ++ a.primaryLink else base
  | none => base

/-- The Autentique section of the handler (src/api/webhook.js lines
109–156): runs only when the integration is enabled; every failure inside
it (field extraction, client construction, send) is caught and the handler
continues; the best-effort Autentique-link field update likewise records
its call but never fails the invocation. -/
def autentiqueBlock (env : WebhookEnv) (lead : JsVal) (docId documentTitle : String) :
    Option Autentique.AutResult × List WebhookEffect :=
  if !env.settings.autentiqueEnabled then (none, [])
  else
    match Kommo.getCustomFieldValue lead "768253" with
    | .error _ => (none, [])
    | .ok emailV =>
      if !emailV.jsTruthy then (none, [])
      else
        match env.autentiqueInit with
        | .error _ => (none, [])
        | .ok _ =>
          match env.sendResult with
          | .error _ => (none, [.sendAutentique docId documentTitle emailV])
          | .ok autDoc =>
            if optTruthy env.settings.autentiqueLinkFieldId then
              (some autDoc,
               [.sendAutentique docId documentTitle emailV,
                .updateLeadCustomField (env.settings.autentiqueLinkFieldId.getD "")
                  autDoc.primaryLink])
            else (some autDoc, [.sendAutentique docId documentTitle emailV])

/-- Best-effort document-link field update (src/api/webhook.js lines
159–168): called when `linkFieldId` is truthy; its failure is caught. -/
def linkUpdateEffects (linkFieldId docLink : String) : List WebhookEffect :=
  if linkFieldId ≠ "" then [.updateLeadCustomField linkFieldId docLink] else []

/-- Best-effort note post (src/api/webhook.js lines 171–187): called when
`postLinkToLead` is set; its failure is caught. -/
def noteEffects (postLinkToLead : Bool) (template docLink : String)
    (aut : Option Autentique.AutResult) : List WebhookEffect :=
  if postLinkToLead then [.addNote (noteText template docLink aut)] else []

/-- Body of the webhook handler inside its `try` block (src/api/webhook.js
lines 23–206): extract ids, evaluate the trigger filter, construct the
clients, fetch and resolve the lead, short-circuit on an existing contract
link, build the replacements, derive the title, create the document, run
the Autentique section and the best-effort side effects, and return the
success body. A `.error` result models an exception reaching the outer
`catch`. -/
def webhookMain (env : WebhookEnv) (body : JsVal) :
    Except String RespBody × List WebhookEffect :=
  match extractLeadId body with
  | .error e => (.error e, [])
  | .ok leadId =>
    if !leadId.jsTruthy then (.ok .noLeadId, [])
    else
      match extractNewStatusId body with
      | .error e => (.error e, [])
      | .ok newStatusId =>
        match extractNewPipelineId body with
        | .error e => (.error e, [])
        | .ok newPipelineId =>
          if !shouldTrigger env.settings.trigger newPipelineId newStatusId then
            (.ok .triggerNotMet, [])
          else
            match env.kommoInit with
            | .error e => (.error e, [])
            | .ok _ =>
              match env.googleInit with
              | .error e => (.error e, [])
              | .ok _ =>
                match env.getLeadResult with
                | .error e => (.error e, [.getLead leadId])
                | .ok leadData =>
                  match resolveLead leadData with
                  | .error e => (.error e, [.getLead leadId])
                  | .ok lead =>
                    match Kommo.getCustomFieldValue lead env.settings.linkFieldId with
                    | .error e => (.error e, [.getLead leadId])
                    | .ok existingContractLink =>
                      if existingContractLink.jsTruthy then
                        (.ok (.existingContract leadId existingContractLink),
                         [.getLead leadId])
                      else
                        match buildReplacements lead env.fieldMapping with
                        | .error e => (.error e, [.getLead leadId])
                        | .ok replacements =>
                          match Kommo.getCustomFieldValue lead "764177" with
                          | .error e => (.error e, [.getLead leadId])
                          | .ok nomeV =>
                            match (if nomeV.jsTruthy then Except.ok nomeV
                                   else jsGetProp lead "name") with
                            | .error e => (.error e, [.getLead leadId])
                            | .ok nomeCompleto =>
                              let documentTitle :=
                                "Contrato - " ++ nomeCompleto.jsToString ++ " - " ++ env.today
                              match env.createContractResult with
                              | .error e =>
                                (.error e,
                                 [.getLead leadId,
                                  .createContract env.settings.templateDocId documentTitle
                                    replacements])
                              | .ok document =>
                                let aut := autentiqueBlock env lead document.id documentTitle
                                (.ok (.success leadId document.id document.link
                                    (aut.1.map (fun a => ⟨a.id, a.primaryLink, a.signatures⟩))),
                                 [.getLead leadId,
                                  .createContract env.settings.templateDocId documentTitle
                                    replacements] ++ aut.2 ++
                                  linkUpdateEffects env.settings.linkFieldId document.link ++
                                  noteEffects env.settings.postLinkToLead
                                    env.settings.noteTemplate document.link aut.1)

/-- The webhook handler (src/api/webhook.js lines 17–217): `405` for
non-POST methods; otherwise every outcome of the `try` block is reported
with status `200`, exceptions in-band as `{success:false, error}`. -/
def handler (env : WebhookEnv) (req : Request) : (Nat × RespBody) × List WebhookEffect :=
  if req.method ≠ "POST" then ((405, .methodNotAllowed), [])
  else
    match webhookMain env req.body with
    | (.ok r, effs) => ((200, r), effs)
    | (.error e, effs) => ((200, .failure e), effs)

/-- Whether an effect is the document-creation composite call. -/
def WebhookEffect.isCreateContract : WebhookEffect → Bool
  | .createContract _ _ _ => true
  | _ => false

/-- Number of document-creation calls in a trace. -/
def createContractCount (effs : List WebhookEffect) : Nat :=
  effs.countP (fun e => e.isCreateContract)

end Webhook

/-- Demo configuration: no trigger filter, default link field, all other
integrations off. -/
def demoSettings : Webhook.Settings :=
  ⟨⟨none, none⟩, some "tpl", none, [], "reader", "768137", false,
   "Contrato criado: {link}", none, false⟩

/-- Demo webhook body in the nested shape:
`{"leads":{"status":[{"id":42,"status_id":9,"pipeline_id":7}]}}`. -/
def demoBody : JsVal :=
  JsVal.objOf [("leads", JsVal.objOf [("status", JsVal.arrOf
    [JsVal.objOf [("id", .num 42), ("status_id", .num 9), ("pipeline_id", .num 7)]])])]

/-- Demo lead whose existing-contract-link field (768137) is populated. -/
def demoLeadExisting : JsVal :=
  Kommo.mkEntity 768137 [JsVal.objOf [("value", .str "https://docs.example/old")]]

/-- Demo environment for the short-circuit scenario. -/
def demoEnvExisting : Webhook.WebhookEnv :=
  ⟨demoSettings, [("1", "[A]")], .ok (), .ok (), .ok demoLeadExisting,
   .ok ⟨"docid", "https://docs.example/new"⟩, .ok (), .error "disabled",
   .ok (), .ok (), .ok (), "2026-10-11"⟩

/-- Demo environment in which the lead fetch fails upstream. -/
def demoEnvLeadFail : Webhook.WebhookEnv :=
  ⟨demoSettings, [("1", "[A]")], .ok (), .ok (), .error "ECONNREFUSED",
   .ok ⟨"docid", "L"⟩, .ok (), .error "disabled", .ok (), .ok (), .ok (), "2026-10-11"⟩

/-! ### Theorems -/

namespace Webhook

theorem jsStrictNeqNum_eq_false_iff (a b : Option Int) :
    jsStrictNeqNum a b = false ↔ ∃ n, a = some n ∧ b = some n := by
  cases a with
  | none => simp [jsStrictNeqNum]
  | some x =>
    cases b with
    | none => simp [jsStrictNeqNum]
    | some y =>
      simp only [jsStrictNeqNum, bne_eq_false_iff_eq, Option.some.injEq]
      constructor
      · intro h; exact ⟨x, rfl, h.symm⟩
      · rintro ⟨n, hx, hy⟩; exact hx.trans hy.symm

end Webhook

/-- C4 — `shouldTrigger` returns true for every input when neither filter
field is set; when either is set it returns true exactly when every set
field numerically equals (via `parseInt` on both sides, so numeric strings
and numbers are interchangeable) the corresponding webhook value, and false
on any mismatch. -/
theorem shouldTrigger_matches_filter (cfg : Webhook.TriggerConfig) (p s : JsVal) :
    Webhook.shouldTrigger cfg p s = true ↔
      ((optTruthy cfg.pipelineId = false ∧ optTruthy cfg.statusId = false) ∨
       ((optTruthy cfg.pipelineId = true → Webhook.numMatch p cfg.pipelineId) ∧
        (optTruthy cfg.statusId = true → Webhook.numMatch s cfg.statusId))) := by
  unfold Webhook.shouldTrigger
  cases hp : optTruthy cfg.pipelineId with
  | false =>
    cases hs : optTruthy cfg.statusId with
    | false => simp
    | true =>
      cases hneq : Webhook.jsStrictNeqNum (jsParseInt s) (jsParseInt (optToJs cfg.statusId)) with
      | false =>
        simp only [Webhook.jsStrictNeqNum_eq_false_iff] at hneq
        simp [Webhook.numMatch, hneq]
      | true =>
        have : ¬ Webhook.numMatch s cfg.statusId := by
          rw [Webhook.numMatch, ← Webhook.jsStrictNeqNum_eq_false_iff]
          simp [hneq]
        simp [this, hneq]
  | true =>
    cases hneqp : Webhook.jsStrictNeqNum (jsParseInt p) (jsParseInt (optToJs cfg.pipelineId)) with
    | false =>
      have hmp : Webhook.numMatch p cfg.pipelineId := by
        rw [Webhook.numMatch, ← Webhook.jsStrictNeqNum_eq_false_iff]; exact hneqp
      cases hs : optTruthy cfg.statusId with
      | false => simp [hneqp, hmp]
      | true =>
        cases hneqs : Webhook.jsStrictNeqNum (jsParseInt s) (jsParseInt (optToJs cfg.statusId)) with
        | false =>
          have hms : Webhook.numMatch s cfg.statusId := by
            rw [Webhook.numMatch, ← Webhook.jsStrictNeqNum_eq_false_iff]; exact hneqs
          simp [hneqp, hneqs, hmp, hms]
        | true =>
          have : ¬ Webhook.numMatch s cfg.statusId := by
            rw [Webhook.numMatch, ← Webhook.jsStrictNeqNum_eq_false_iff]
            simp [hneqs]
          simp [hneqp, hneqs, this]
    | true =>
      have : ¬ Webhook.numMatch p cfg.pipelineId := by
        rw [Webhook.numMatch, ← Webhook.jsStrictNeqNum_eq_false_iff]
        simp [hneqp]
      simp [hneqp, this]

/-- Witness for C4: the filter `{pipelineId: "7", statusId: null}` accepts
the webhook value `7` by the numeric-match criterion. -/
theorem shouldTrigger_matches_filter_witness :
    Webhook.shouldTrigger ⟨some "7", none⟩ (.num 7) .undef = true :=
  (shouldTrigger_matches_filter ⟨some "7", none⟩ (.num 7) .undef).mpr
    (Or.inr ⟨fun _ => ⟨7, by decide, by decide⟩, fun h => by simp [optTruthy] at h⟩)

namespace GoogleDocs

theorem replacePlaceholders_effects (env : DocsEnv) (documentId : String)
    (replacements : List (String × JsVal)) :
    (replacePlaceholders env documentId replacements).2 = [] ∨
      (replacePlaceholders env documentId replacements).2 =
        [.batchUpdate documentId (buildReplaceRequests replacements)] := by
  unfold replacePlaceholders
  cases h : buildReplaceRequests replacements with
  | nil => simp
  | cons r rest =>
    cases env.batchUpdateResult <;> simp [h]

theorem shareLoop_effects_are_permissions (env : DocsEnv) (fileId role : String)
    (emails : List String) :
    ∀ eff ∈ (shareLoop env fileId role emails).2, eff.isPermissionOrLink = true ∧
      eff.isGetFileLink = false := by
  induction emails with
  | nil => simp [shareLoop]
  | cons email rest ih =>
    intro eff heff
    unfold shareLoop at heff
    cases h : env.userPermResult email with
    | error e =>
      rw [h] at heff
      simp at heff
      subst heff
      exact ⟨rfl, rfl⟩
    | ok _ =>
      rw [h] at heff
      simp at heff
      rcases heff with heff | heff
      · subst heff; exact ⟨rfl, rfl⟩
      · exact ih eff heff

theorem shareDocument_effects_are_permissions (env : DocsEnv) (fileId : String)
    (emails : List String) (role : String) :
    ∀ eff ∈ (shareDocument env fileId emails role).2, eff.isPermissionOrLink = true ∧
      eff.isGetFileLink = false := by
  unfold shareDocument
  by_cases h : role = "reader" ∨ role = "writer" ∨ role = "commenter"
  · simp only [h, if_pos]
    exact shareLoop_effects_are_permissions env fileId role emails
  · simp [h]

end GoogleDocs

/-- C2 counterexample — a replacement set consisting of the single entry
`{"[A]": null}` produces zero `replaceAllText` requests and no backend call
at all: the null-valued entry is skipped, contradicting the claim that
every entry (including absent-valued ones) yields exactly one substitution
to a possibly empty string. -/
theorem replacePlaceholders_skips_null_entry :
    GoogleDocs.buildReplaceRequests [("[A]", JsVal.null)] = [] ∧
      GoogleDocs.replacePlaceholders GoogleDocs.demoDocsEnv "doc1" [("[A]", JsVal.null)] =
        (.ok (), []) :=
  ⟨rfl, rfl⟩

/-- C2 (amended) — `replacePlaceholders` substitutes every entry whose value
is neither `null` nor `undefined` (including empty-string values), building
exactly one case-sensitive `replaceAllText` request per such entry replacing
the placeholder with `String(value)`; all requests go out in one single
batched update, and when every entry was skipped no backend request is made
at all. -/
theorem replacePlaceholders_batches_defined_entries (env : GoogleDocs.DocsEnv)
    (documentId : String) (replacements : List (String × JsVal)) :
    GoogleDocs.buildReplaceRequests replacements =
      replacements.filterMap (fun pv =>
        match pv.2 with
        | .null => none
        | .undef => none
        | v => some ⟨pv.1, true, v.jsToString⟩) ∧
    (∀ r ∈ GoogleDocs.buildReplaceRequests replacements, r.matchCase = true) ∧
    (GoogleDocs.buildReplaceRequests replacements = [] →
      GoogleDocs.replacePlaceholders env documentId replacements = (.ok (), [])) ∧
    (GoogleDocs.buildReplaceRequests replacements ≠ [] →
      (GoogleDocs.replacePlaceholders env documentId replacements).2 =
        [.batchUpdate documentId (GoogleDocs.buildReplaceRequests replacements)]) := by
  refine ⟨?_, ?_, ?_, ?_⟩
  · induction replacements with
    | nil => simp [GoogleDocs.buildReplaceRequests]
    | cons hd tl ih =>
      obtain ⟨p, v⟩ := hd
      cases v <;> simp [GoogleDocs.buildReplaceRequests, ih]
  · induction replacements with
    | nil => simp [GoogleDocs.buildReplaceRequests]
    | cons hd tl ih =>
      obtain ⟨p, v⟩ := hd
      intro r hr
      cases v <;> simp [GoogleDocs.buildReplaceRequests] at hr <;>
        first
          | exact ih r hr
          | (rcases hr with hr | hr
             · subst hr; rfl
             · exact ih r hr)
  · intro h
    unfold GoogleDocs.replacePlaceholders
    rw [h]
  · intro h
    unfold GoogleDocs.replacePlaceholders
    cases hb : GoogleDocs.buildReplaceRequests replacements with
    | nil => exact absurd hb h
    | cons r rest => cases env.batchUpdateResult <;> simp

/-- Witness for C2 (amended): a one-entry replacement set with an
empty-string value is not skipped — it is submitted as a single batched
case-sensitive request substituting the empty string. -/
theorem replacePlaceholders_batches_defined_entries_witness :
    (GoogleDocs.replacePlaceholders GoogleDocs.demoDocsEnv "doc1" [("[B]", JsVal.str "")]).2 =
      [.batchUpdate "doc1" (GoogleDocs.buildReplaceRequests [("[B]", JsVal.str "")])] :=
  (replacePlaceholders_batches_defined_entries GoogleDocs.demoDocsEnv "doc1"
    [("[B]", JsVal.str "")]).2.2.2 (by decide)

/-- C8 — in the `createContract` composite: a failure of
`replacePlaceholders` aborts the composite with that same error and no
permission-grant or link-fetch call is attempted; more generally a failure
of the template copy, of the sharing step or of the link fetch aborts the
composite with the originating error. -/
theorem createContract_aborts_on_step_failure (env : GoogleDocs.DocsEnv)
    (templateId title : String) (replacements : List (String × JsVal))
    (folderId : Option String) (shareWith : List String) (shareRole : String) :
    (∀ docId e, env.copyResult = .ok docId →
      (GoogleDocs.replacePlaceholders env docId replacements).1 = .error e →
      (GoogleDocs.createContract env templateId title replacements folderId
        shareWith shareRole).1 = .error e ∧
      ∀ eff ∈ (GoogleDocs.createContract env templateId title replacements folderId
        shareWith shareRole).2, eff.isPermissionOrLink = false) ∧
    (∀ e, env.copyResult = .error e →
      GoogleDocs.createContract env templateId title replacements folderId
        shareWith shareRole =
        (.error e, [.copyTemplate templateId title folderId])) ∧
    (∀ docId e, env.copyResult = .ok docId →
      (GoogleDocs.replacePlaceholders env docId replacements).1 = .ok () →
      shareWith ≠ [] →
      (GoogleDocs.shareDocument env docId shareWith shareRole).1 = .error e →
      (GoogleDocs.createContract env templateId title replacements folderId
        shareWith shareRole).1 = .error e ∧
      ∀ eff ∈ (GoogleDocs.createContract env templateId title replacements folderId
        shareWith shareRole).2, eff.isGetFileLink = false) ∧
    (∀ docId e, env.copyResult = .ok docId →
      (GoogleDocs.replacePlaceholders env docId replacements).1 = .ok () →
      (match shareWith with
        | [] => (Except.ok (), ([] : List GoogleDocs.DocsEffect))
        | _ => GoogleDocs.shareDocument env docId shareWith shareRole).1 = .ok () →
      (GoogleDocs.getShareableLink env docId).1 = .error e →
      (GoogleDocs.createContract env templateId title replacements folderId
        shareWith shareRole).1 = .error e) := by
  refine ⟨?_, ?_, ?_, ?_⟩
  · intro docId e hcopy hrep
    rcases hR : GoogleDocs.replacePlaceholders env docId replacements with ⟨res2, effs2⟩
    rw [hR] at hrep
    simp only at hrep
    subst hrep
    have hx : GoogleDocs.createContract env templateId title replacements folderId
        shareWith shareRole = (.error e, [.copyTemplate templateId title folderId] ++ effs2) := by
      unfold GoogleDocs.createContract GoogleDocs.copyTemplate
      rw [hcopy]
      simp only
      rw [hR]
    refine ⟨by rw [hx], ?_⟩
    rw [hx]
    intro eff heff
    simp at heff
    rcases heff with heff | heff
    · subst heff; rfl
    · have := GoogleDocs.replacePlaceholders_effects env docId replacements
      rw [hR] at this
      simp only at this
      rcases this with h2 | h2
      · subst h2; simp at heff
      · subst h2; simp at heff; subst heff; rfl
  · intro e hcopy
    unfold GoogleDocs.createContract GoogleDocs.copyTemplate
    rw [hcopy]
  · intro docId e hcopy hrep hsw hshare
    rcases hR : GoogleDocs.replacePlaceholders env docId replacements with ⟨res2, effs2⟩
    rw [hR] at hrep
    simp only at hrep
    subst hrep
    rcases shareWith with _ | ⟨e1, rest⟩
    · exact absurd rfl hsw
    rcases hS : GoogleDocs.shareDocument env docId (e1 :: rest) shareRole with ⟨res3, effs3⟩
    rw [hS] at hshare
    simp only at hshare
    subst hshare
    have hx : GoogleDocs.createContract env templateId title replacements folderId
        (e1 :: rest) shareRole =
        (.error e, [.copyTemplate templateId title folderId] ++ effs2 ++ effs3) := by
      unfold GoogleDocs.createContract GoogleDocs.copyTemplate
      rw [hcopy]
      simp only
      rw [hR]
      simp only
      rw [hS]
    refine ⟨by rw [hx], ?_⟩
    have hP := GoogleDocs.shareDocument_effects_are_permissions env docId (e1 :: rest) shareRole
    rw [hS] at hP
    simp only at hP
    have h2 := GoogleDocs.replacePlaceholders_effects env docId replacements
    rw [hR] at h2
    simp only at h2
    rw [hx]
    intro eff heff
    rcases h2 with h2 | h2 <;> subst h2 <;> simp at heff
    · rcases heff with heff | heff
      · subst heff; rfl
      · exact (hP eff heff).2
    · rcases heff with heff | heff | heff
      · subst heff; rfl
      · subst heff; rfl
      · exact (hP eff heff).2
  · intro docId e hcopy hrep hshare hlink
    rcases hR : GoogleDocs.replacePlaceholders env docId replacements with ⟨res2, effs2⟩
    rw [hR] at hrep
    simp only at hrep
    subst hrep
    rcases hS : (match shareWith with
        | [] => (Except.ok (), ([] : List GoogleDocs.DocsEffect))
        | _ => GoogleDocs.shareDocument env docId shareWith shareRole) with ⟨res3, effs3⟩
    rw [hS] at hshare
    simp only at hshare
    subst hshare
    rcases hL : GoogleDocs.getShareableLink env docId with ⟨res4, effs4⟩
    rw [hL] at hlink
    simp only at hlink
    subst hlink
    unfold GoogleDocs.createContract GoogleDocs.copyTemplate
    rw [hcopy]
    simp only
    rw [hR]
    simp only
    rw [hS]
    simp only
    rw [hL]

/-- Witness for C8: with a backend whose batched update fails, the composite
(on a nonempty replacement set) surfaces exactly that error and performs no
permission or link call. -/
theorem createContract_aborts_on_step_failure_witness :
    (GoogleDocs.createContract
        ⟨.ok "d1", .error "batchUpdate boom", fun _ => .ok (), .ok (), .ok "L"⟩
        "tpl" "Contract" [("[A]", JsVal.str "x")] none [] "reader").1 =
      .error "batchUpdate boom" ∧
    ∀ eff ∈ (GoogleDocs.createContract
        ⟨.ok "d1", .error "batchUpdate boom", fun _ => .ok (), .ok (), .ok "L"⟩
        "tpl" "Contract" [("[A]", JsVal.str "x")] none [] "reader").2,
      eff.isPermissionOrLink = false :=
  (createContract_aborts_on_step_failure
    ⟨.ok "d1", .error "batchUpdate boom", fun _ => .ok (), .ok (), .ok "L"⟩
    "tpl" "Contract" [("[A]", JsVal.str "x")] none [] "reader").1
    "d1" "batchUpdate boom" rfl rfl

/-- C1 counterexample — invoking `sendContractForSignature` with an absent
counterparty email (against a backend whose export succeeds and with the
company signer configured) does fail with the validation error, but the
effect trace shows the PDF export step was called before validation:
the claim that the export step is never called is false. -/
theorem sendContractForSignature_exports_before_validation :
    Autentique.sendContractForSignature Autentique.demoAutEnv "doc1" "Contract" none none =
      (.error (.validation "Lead contact email is required"),
       [.exportPdf "doc1"]) ∧
    Autentique.AutEffect.exportPdf "doc1" ∈
      (Autentique.sendContractForSignature Autentique.demoAutEnv "doc1" "Contract"
        none none).2 :=
  ⟨rfl, by decide⟩

/-- C1 (amended) — whenever the PDF export succeeds and the company signer
email is configured, `sendContractForSignature` with an empty or absent
counterparty email fails with the validation error "Lead contact email is
required" and never reaches the signature backend — but only after the PDF
export call has already been made: the export is not gated on validation. -/
theorem sendContractForSignature_empty_email_fails (env : Autentique.AutEnv)
    (googleDocId documentName : String) (leadContactEmail leadContactName : Option String)
    (pdf : String) :
    env.exportResult = .ok pdf →
    optTruthy env.companySignerEmail = true →
    optTruthy leadContactEmail = false →
    Autentique.sendContractForSignature env googleDocId documentName
        leadContactEmail leadContactName =
      (.error (.validation "Lead contact email is required"),
       [.exportPdf googleDocId]) := by
  intro hexp hcompany hemail
  unfold Autentique.sendContractForSignature Autentique.exportDocumentAsPdf
  rw [hexp]
  simp [hcompany, hemail]

/-- Witness for C1 (amended): the empty-string counterparty email fails with
the validation error after the export call. -/
theorem sendContractForSignature_empty_email_fails_witness :
    Autentique.sendContractForSignature Autentique.demoAutEnv "doc2" "Contract"
        (some "") none =
      (.error (.validation "Lead contact email is required"),
       [.exportPdf "doc2"]) :=
  sendContractForSignature_empty_email_fails Autentique.demoAutEnv "doc2" "Contract"
    (some "") none "PDF" rfl rfl rfl

namespace Kommo

theorem getCustomFieldValue_mkEntity (fs : JsObj) :
    getCustomFieldValue (mkEntity 5 [.obj fs]) "5" =
      (match (fs.lookup "value").getD .undef with
       | .undef =>
         if ((fs.lookup "enum_code").getD .undef).jsTruthy then
           .ok ((fs.lookup "enum_code").getD .undef)
         else if ((fs.lookup "enum").getD .undef).jsTruthy then
           .ok ((fs.lookup "enum").getD .undef)
         else .ok .null
       | v => .ok v) := rfl

theorem findByFieldId_single_miss (fid : Int) (rest : JsObj) (target : Option Int)
    (h : ∀ m, target = some m → fid ≠ m) :
    findByFieldId (.cons (.obj (.cons "field_id" (.num fid) rest)) .nil) target =
      .ok none := by
  cases target with
  | none => rfl
  | some m =>
    have hne : (fid == m) = false := by
      simpa using h m rfl
    show (if (fid == m) = true then
        Except.ok (some (JsVal.obj (JsObj.cons "field_id" (JsVal.num fid) rest)))
      else Except.ok none) = Except.ok none
    rw [hne]
    simp

end Kommo

/-- C5 counterexample — `getCustomFieldValue` does throw on a malformed
entity: a `null` entity raises a `TypeError` on the `custom_fields_values`
property access, contradicting "never throws on any input (including
malformed entities)". -/
theorem getCustomFieldValue_throws_on_null_entity :
    Kommo.getCustomFieldValue JsVal.null "768137" =
      .error "TypeError: Cannot read properties of null (reading custom_fields_values)" :=
  rfl

/-- C5 (amended) — `getCustomFieldValue` is pure and returns absence
(`null`), not an exception, for an entity whose custom-field collection is
missing, for an empty collection, and for a field id that does not match
the collection's entry — but it is not exception-free on arbitrary
malformed inputs (for example a `null` entity throws). -/
theorem getCustomFieldValue_absence_cases :
    (∀ (fs : JsObj) (fieldId : String), fs.lookup "custom_fields_values" = none →
      Kommo.getCustomFieldValue (.obj fs) fieldId = .ok .null) ∧
    (∀ (fs : JsObj) (fieldId : String),
      fs.lookup "custom_fields_values" = some (.arr .nil) →
      Kommo.getCustomFieldValue (.obj fs) fieldId = .ok .null) ∧
    (∀ (fid : Int) (vals : List JsVal) (fieldId : String),
      jsParseInt (.str fieldId) ≠ some fid →
      Kommo.getCustomFieldValue (Kommo.mkEntity fid vals) fieldId = .ok .null) := by
  refine ⟨?_, ?_, ?_⟩
  · intro fs fieldId h
    unfold Kommo.getCustomFieldValue
    have hp : jsGetProp (.obj fs) "custom_fields_values" = .ok JsVal.undef := by
      simp [jsGetProp, h]
    rw [hp]
    rfl
  · intro fs fieldId h
    unfold Kommo.getCustomFieldValue
    have hp : jsGetProp (.obj fs) "custom_fields_values" = .ok (.arr .nil) := by
      simp [jsGetProp, h]
    rw [hp]
    rfl
  · intro fid vals fieldId h
    have hfind := Kommo.findByFieldId_single_miss fid
      (JsObj.cons "values" (JsVal.arrOf vals) .nil)
      (jsParseInt (.str fieldId)) (fun m hm heq => h (by rw [hm, heq]))
    have hstep : Kommo.getCustomFieldValue (Kommo.mkEntity fid vals) fieldId =
        (Kommo.findByFieldId
          (.cons (.obj (.cons "field_id" (.num fid)
            (.cons "values" (JsVal.arrOf vals) .nil))) .nil)
          (jsParseInt (.str fieldId))).bind (fun fieldOpt =>
            match fieldOpt with
            | none => Except.ok .null
            | some field => Kommo.extractFromField field) := rfl
    rw [hstep, hfind]
    rfl

/-- Witness for C5 (amended): an entity with no custom-field collection at
all yields absence. -/
theorem getCustomFieldValue_absence_cases_witness :
    Kommo.getCustomFieldValue (.obj .nil) "768137" = .ok .null :=
  getCustomFieldValue_absence_cases.1 .nil "768137" rfl

/-- C6 counterexample — on a value entry with a defined-but-falsy
enumeration code (the empty string) and a defined enumeration label, the
source skips the enumeration code (it tests truthiness, not presence) and
returns the label, while the spec's first-present rule would return the
empty-string enumeration code. -/
theorem getCustomFieldValue_skips_defined_falsy_enum_code :
    Kommo.getCustomFieldValue
        (Kommo.mkEntity 5 [JsVal.objOf [("enum_code", .str ""), ("enum", .str "LABEL")]])
        "5" = .ok (.str "LABEL") ∧
    Kommo.specFirstPresentValue
        (JsObj.ofList [("enum_code", JsVal.str ""), ("enum", JsVal.str "LABEL")]) =
      .str "" ∧
    JsVal.str "LABEL" ≠ JsVal.str "" :=
  ⟨rfl, rfl, by decide⟩

/-- C6 (amended) — on a found field's first value entry,
`getCustomFieldValue` returns the plain `value` property whenever it is
defined (even when it is `null` or otherwise falsy); otherwise the
enumeration code if that is truthy; otherwise the enumeration label if
that is truthy; otherwise absence — a defined but falsy enumeration
code or label (for example the empty string) is skipped, not returned. -/
theorem getCustomFieldValue_preference_order (fs : JsObj) :
    (((fs.lookup "value").getD .undef ≠ .undef →
      Kommo.getCustomFieldValue (Kommo.mkEntity 5 [.obj fs]) "5" =
        .ok ((fs.lookup "value").getD .undef)) ∧
     ((fs.lookup "value").getD .undef = .undef →
      ((fs.lookup "enum_code").getD .undef).jsTruthy = true →
      Kommo.getCustomFieldValue (Kommo.mkEntity 5 [.obj fs]) "5" =
        .ok ((fs.lookup "enum_code").getD .undef)) ∧
     ((fs.lookup "value").getD .undef = .undef →
      ((fs.lookup "enum_code").getD .undef).jsTruthy = false →
      ((fs.lookup "enum").getD .undef).jsTruthy = true →
      Kommo.getCustomFieldValue (Kommo.mkEntity 5 [.obj fs]) "5" =
        .ok ((fs.lookup "enum").getD .undef)) ∧
     ((fs.lookup "value").getD .undef = .undef →
      ((fs.lookup "enum_code").getD .undef).jsTruthy = false →
      ((fs.lookup "enum").getD .undef).jsTruthy = false →
      Kommo.getCustomFieldValue (Kommo.mkEntity 5 [.obj fs]) "5" = .ok .null)) := by
  refine ⟨?_, ?_, ?_, ?_⟩
  · intro h
    rw [Kommo.getCustomFieldValue_mkEntity]
    revert h
    cases hpv : (fs.lookup "value").getD JsVal.undef <;> intro h <;>
      first
        | exact absurd rfl h
        | rfl
  · intro h1 h2
    rw [Kommo.getCustomFieldValue_mkEntity, h1]
    simp [h2]
  · intro h1 h2 h3
    rw [Kommo.getCustomFieldValue_mkEntity, h1]
    simp [h2, h3]
  · intro h1 h2 h3
    rw [Kommo.getCustomFieldValue_mkEntity, h1]
    simp [h2, h3]

/-- Witness for C6 (amended): with both a plain value and an enumeration
code defined, the plain value wins. -/
theorem getCustomFieldValue_preference_order_witness :
    Kommo.getCustomFieldValue
        (Kommo.mkEntity 5 [.obj (JsObj.ofList [("value", .str "X"), ("enum_code", .str "C")])])
        "5" = .ok (.str "X") :=
  (getCustomFieldValue_preference_order
    (JsObj.ofList [("value", .str "X"), ("enum_code", .str "C")])).1 (by decide)

theorem exceptBindOk {ε α β : Type} (a : α) (f : α → Except ε β) :
    (Except.ok a >>= f) = f a := rfl

theorem exceptBindErr {ε α β : Type} (e : ε) (f : α → Except ε β) :
    ((Except.error e : Except ε α) >>= f) = Except.error e := rfl

theorem exceptPureEq {ε α : Type} (a : α) : (pure a : Except ε α) = Except.ok a := rfl

namespace Webhook

theorem createContractCount_append (l1 l2 : List WebhookEffect) :
    createContractCount (l1 ++ l2) = createContractCount l1 + createContractCount l2 :=
  List.countP_append _ _ _

theorem autentiqueBlock_no_create (env : WebhookEnv) (lead : JsVal)
    (docId documentTitle : String) :
    createContractCount (autentiqueBlock env lead docId documentTitle).2 = 0 := by
  unfold autentiqueBlock
  repeat' split
  all_goals rfl

theorem linkUpdateEffects_no_create (linkFieldId docLink : String) :
    createContractCount (linkUpdateEffects linkFieldId docLink) = 0 := by
  unfold linkUpdateEffects
  split
  all_goals rfl

theorem noteEffects_no_create (postLinkToLead : Bool) (template docLink : String)
    (aut : Option Autentique.AutResult) :
    createContractCount (noteEffects postLinkToLead template docLink aut) = 0 := by
  unfold noteEffects
  split
  all_goals rfl

theorem webhookMain_count (env : WebhookEnv) (body : JsVal) :
    createContractCount (webhookMain env body).2 ≤ 1 := by
  unfold webhookMain
  repeat' split
  all_goals try exact Nat.zero_le 1
  all_goals try exact Nat.le_refl 1
  all_goals
    rw [createContractCount_append, createContractCount_append, createContractCount_append,
      autentiqueBlock_no_create, linkUpdateEffects_no_create, noteEffects_no_create]
  all_goals exact Nat.le_refl 1

theorem handler_count (env : WebhookEnv) (req : Request) :
    createContractCount (handler env req).2 ≤ 1 := by
  unfold handler
  split
  · decide
  · rcases hm : webhookMain env req.body with ⟨res, effs⟩
    have h := webhookMain_count env req.body
    rw [hm] at h
    cases res <;> simpa using h

theorem webhookMain_existing (env : WebhookEnv) (body leadId newStatusId newPipelineId
    leadData lead link : JsVal)
    (h1 : extractLeadId body = .ok leadId) (h2 : leadId.jsTruthy = true)
    (h3 : extractNewStatusId body = .ok newStatusId)
    (h4 : extractNewPipelineId body = .ok newPipelineId)
    (h5 : shouldTrigger env.settings.trigger newPipelineId newStatusId = true)
    (h6 : env.kommoInit = .ok ()) (h7 : env.googleInit = .ok ())
    (h8 : env.getLeadResult = .ok leadData)
    (h9 : resolveLead leadData = .ok lead)
    (h10 : Kommo.getCustomFieldValue lead env.settings.linkFieldId = .ok link)
    (h11 : link.jsTruthy = true) :
    webhookMain env body = (.ok (.existingContract leadId link), [.getLead leadId]) := by
  unfold webhookMain
  simp [h1, h2, h3, h4, h5, h6, h7, h8, h9, h10, h11]

end Webhook

/-- C3 — a webhook invocation whose Lead carries a truthy existing-contract
link short-circuits: the handler responds `200` with `success:true` and the
existing link, having made no document-service call; and in general every
invocation makes at most one document-creation call. -/
theorem webhook_short_circuits_on_existing_contract :
    (∀ (env : Webhook.WebhookEnv) (body leadId newStatusId newPipelineId
        leadData lead link : JsVal),
      Webhook.extractLeadId body = .ok leadId → leadId.jsTruthy = true →
      Webhook.extractNewStatusId body = .ok newStatusId →
      Webhook.extractNewPipelineId body = .ok newPipelineId →
      Webhook.shouldTrigger env.settings.trigger newPipelineId newStatusId = true →
      env.kommoInit = .ok () → env.googleInit = .ok () →
      env.getLeadResult = .ok leadData →
      Webhook.resolveLead leadData = .ok lead →
      Kommo.getCustomFieldValue lead env.settings.linkFieldId = .ok link →
      link.jsTruthy = true →
      Webhook.handler env ⟨"POST", body⟩ =
        ((200, .existingContract leadId link), [.getLead leadId]) ∧
      Webhook.RespBody.successField (.existingContract leadId link) = some true ∧
      Webhook.createContractCount (Webhook.handler env ⟨"POST", body⟩).2 = 0) ∧
    (∀ (env : Webhook.WebhookEnv) (req : Webhook.Request),
      Webhook.createContractCount (Webhook.handler env req).2 ≤ 1) := by
  constructor
  · intro env body leadId newStatusId newPipelineId leadData lead link
      h1 h2 h3 h4 h5 h6 h7 h8 h9 h10 h11
    have hm := Webhook.webhookMain_existing env body leadId newStatusId newPipelineId
      leadData lead link h1 h2 h3 h4 h5 h6 h7 h8 h9 h10 h11
    have hh : Webhook.handler env ⟨"POST", body⟩ =
        ((200, .existingContract leadId link), [.getLead leadId]) := by
      unfold Webhook.handler
      rw [hm]
      simp
    refine ⟨hh, rfl, ?_⟩
    rw [hh]
    rfl
  · exact Webhook.handler_count

/-- Witness for C3: the demo invocation with a populated link field
short-circuits with the existing link and performs only the lead fetch. -/
theorem webhook_short_circuits_on_existing_contract_witness :
    Webhook.handler demoEnvExisting ⟨"POST", demoBody⟩ =
      ((200, .existingContract (.num 42) (.str "https://docs.example/old")),
       [.getLead (.num 42)]) :=
  (webhook_short_circuits_on_existing_contract.1 demoEnvExisting demoBody
    (.num 42) (.num 9) (.num 7) demoLeadExisting demoLeadExisting
    (.str "https://docs.example/old")
    rfl rfl rfl rfl rfl rfl rfl rfl rfl rfl rfl).1

theorem replacementValue_ne (v : JsVal) :
    Webhook.replacementValue v ≠ JsVal.null ∧ Webhook.replacementValue v ≠ JsVal.undef := by
  unfold Webhook.replacementValue
  split
  · rename_i hcond
    constructor <;> intro heq <;> rw [heq] at hcond <;> simp [JsVal.jsTruthy] at hcond
  · constructor <;> intro heq <;> simp at heq

/-- C7 — the Replacement Set derived by the webhook handler's loop: for the
mapping `{"1":"[A]","2":"[B]"}` and a Lead exposing field 1 = "X" and field
2 absent it is exactly `{"[A]":"X","[B]":""}`; in general every placeholder
of the mapping is bound, in order, and no bound value is ever `null` or
`undefined` (absent values default to the empty string). -/
theorem webhook_replacement_set :
    Webhook.buildReplacements (Kommo.mkEntity 1 [JsVal.objOf [("value", .str "X")]])
        [("1", "[A]"), ("2", "[B]")] =
      .ok [("[A]", .str "X"), ("[B]", .str "")] ∧
    (∀ (lead : JsVal) (mapping : List (String × String)) (res : List (String × JsVal)),
      Webhook.buildReplacements lead mapping = .ok res →
      res.map Prod.fst = mapping.map Prod.snd ∧
      ∀ pv ∈ res, pv.2 ≠ JsVal.null ∧ pv.2 ≠ JsVal.undef) := by
  constructor
  · rfl
  · intro lead mapping
    induction mapping with
    | nil =>
      intro res h
      simp only [Webhook.buildReplacements] at h
      have : ([] : List (String × JsVal)) = res := by simpa using h
      subst this
      simp
    | cons hd tl ih =>
      intro res h
      obtain ⟨fieldId, placeholder⟩ := hd
      simp only [Webhook.buildReplacements] at h
      cases hv : Kommo.getCustomFieldValue lead fieldId with
      | error e =>
        rw [hv, exceptBindErr] at h
        exact absurd h (by simp)
      | ok value =>
        rw [hv, exceptBindOk] at h
        cases ht : Webhook.buildReplacements lead tl with
        | error e =>
          rw [ht, exceptBindErr] at h
          exact absurd h (by simp)
        | ok tail =>
          rw [ht, exceptBindOk, exceptPureEq] at h
          have hres : (placeholder, Webhook.replacementValue value) :: tail = res := by
            simpa using h
          subst hres
          obtain ⟨ih1, ih2⟩ := ih tail ht
          constructor
          · simp [ih1]
          · intro pv hpv
            rcases List.mem_cons.mp hpv with hpv | hpv
            · rw [hpv]
              exact replacementValue_ne value
            · exact ih2 pv hpv

/-- Witness for C7: the concrete replacement set of the demo Lead binds
both placeholders, in mapping order, to non-null values. -/
theorem webhook_replacement_set_witness :
    ([("[A]", JsVal.str "X"), ("[B]", JsVal.str "")].map Prod.fst =
      ([("1", "[A]"), ("2", "[B]")] : List (String × String)).map Prod.snd) ∧
    ∀ pv ∈ [("[A]", JsVal.str "X"), ("[B]", JsVal.str "")],
      pv.2 ≠ JsVal.null ∧ pv.2 ≠ JsVal.undef :=
  webhook_replacement_set.2 (Kommo.mkEntity 1 [JsVal.objOf [("value", .str "X")]])
    [("1", "[A]"), ("2", "[B]")] [("[A]", .str "X"), ("[B]", .str "")] rfl

/-- C10 — the `value || ''` coercion of the replacements loop maps every
falsy resolved value (numeric 0, `false`, the empty string, `null`,
`undefined`) to the empty string, so a Lead whose field resolves to `0`
produces the same replacement entry as a Lead missing the field entirely. -/
theorem webhook_falsy_values_become_empty :
    (∀ v : JsVal, v.jsTruthy = false → Webhook.replacementValue v = .str "") ∧
    Webhook.buildReplacements (Kommo.mkEntity 1 [JsVal.objOf [("value", JsVal.num 0)]])
        [("1", "[A]")] =
      Webhook.buildReplacements (JsVal.objOf [("custom_fields_values", JsVal.arrOf [])])
        [("1", "[A]")] ∧
    Webhook.buildReplacements (Kommo.mkEntity 1 [JsVal.objOf [("value", JsVal.num 0)]])
        [("1", "[A]")] = .ok [("[A]", JsVal.str "")] := by
  refine ⟨?_, rfl, rfl⟩
  intro v h
  simp [Webhook.replacementValue, h]

/-- Witness for C10: the numeric value 0 is coerced to the empty string. -/
theorem webhook_falsy_values_become_empty_witness :
    Webhook.replacementValue (JsVal.num 0) = .str "" :=
  webhook_falsy_values_become_empty.1 (.num 0) rfl

/-- C9 — the handler answers `405` exactly for non-POST methods; every POST
request is answered with status `200`, and a throwing primary-path step is
reported in-band: a failing lead fetch produces `{success:false, error}`
with status `200`, and so does a failing document creation. -/
theorem webhook_transport_contract :
    (∀ (env : Webhook.WebhookEnv) (req : Webhook.Request), req.method ≠ "POST" →
      Webhook.handler env req = ((405, .methodNotAllowed), [])) ∧
    (∀ (env : Webhook.WebhookEnv) (req : Webhook.Request), req.method = "POST" →
      (Webhook.handler env req).1.1 = 200) ∧
    (∀ (env : Webhook.WebhookEnv) (body leadId newStatusId newPipelineId : JsVal)
        (e : String),
      Webhook.extractLeadId body = .ok leadId → leadId.jsTruthy = true →
      Webhook.extractNewStatusId body = .ok newStatusId →
      Webhook.extractNewPipelineId body = .ok newPipelineId →
      Webhook.shouldTrigger env.settings.trigger newPipelineId newStatusId = true →
      env.kommoInit = .ok () → env.googleInit = .ok () →
      env.getLeadResult = .error e →
      Webhook.handler env ⟨"POST", body⟩ = ((200, .failure e), [.getLead leadId])) ∧
    (∀ (env : Webhook.WebhookEnv)
        (body leadId newStatusId newPipelineId leadData lead link nomeV : JsVal)
        (replacements : List (String × JsVal)) (nomeCompleto : JsVal) (e : String),
      Webhook.extractLeadId body = .ok leadId → leadId.jsTruthy = true →
      Webhook.extractNewStatusId body = .ok newStatusId →
      Webhook.extractNewPipelineId body = .ok newPipelineId →
      Webhook.shouldTrigger env.settings.trigger newPipelineId newStatusId = true →
      env.kommoInit = .ok () → env.googleInit = .ok () →
      env.getLeadResult = .ok leadData →
      Webhook.resolveLead leadData = .ok lead →
      Kommo.getCustomFieldValue lead env.settings.linkFieldId = .ok link →
      link.jsTruthy = false →
      Webhook.buildReplacements lead env.fieldMapping = .ok replacements →
      Kommo.getCustomFieldValue lead "764177" = .ok nomeV →
      (if nomeV.jsTruthy then Except.ok nomeV else jsGetProp lead "name") =
        .ok nomeCompleto →
      env.createContractResult = .error e →
      (Webhook.handler env ⟨"POST", body⟩).1 = (200, .failure e)) := by
  refine ⟨?_, ?_, ?_, ?_⟩
  · intro env req h
    unfold Webhook.handler
    simp [h]
  · intro env req h
    unfold Webhook.handler
    have hne : ¬(req.method ≠ "POST") := fun hn => hn h
    rw [if_neg hne]
    rcases hm : Webhook.webhookMain env req.body with ⟨res, effs⟩
    cases res <;> rfl
  · intro env body leadId newStatusId newPipelineId e h1 h2 h3 h4 h5 h6 h7 h8
    have hm : Webhook.webhookMain env body = (.error e, [.getLead leadId]) := by
      unfold Webhook.webhookMain
      simp [h1, h2, h3, h4, h5, h6, h7, h8]
    unfold Webhook.handler
    rw [if_neg (by simp), hm]
  · intro env body leadId newStatusId newPipelineId leadData lead link nomeV
      replacements nomeCompleto e h1 h2 h3 h4 h5 h6 h7 h8 h9 h10 h11 h12 h13 h14 h15
    have hm : (Webhook.webhookMain env body).1 = .error e := by
      unfold Webhook.webhookMain
      simp [h1, h2, h3, h4, h5, h6, h7, h8, h9, h10, h11, h12, h13, h14, h15]
    unfold Webhook.handler
    rw [if_neg (by simp)]
    rcases hw : Webhook.webhookMain env body with ⟨res, effs⟩
    rw [hw] at hm
    simp only at hm
    subst hm
    rfl

/-- Witness for C9: the demo invocation whose lead fetch throws is answered
with status 200 and `{success:false, error:"ECONNREFUSED"}`. -/
theorem webhook_transport_contract_witness :
    Webhook.handler demoEnvLeadFail ⟨"POST", demoBody⟩ =
      ((200, .failure "ECONNREFUSED"), [.getLead (.num 42)]) :=
  webhook_transport_contract.2.2.1 demoEnvLeadFail demoBody (.num 42) (.num 9) (.num 7)
    "ECONNREFUSED" rfl rfl rfl rfl rfl rfl rfl rfl
